import Mathlib

set_option maxHeartbeats 1000000

namespace TripWeaver

/-! Shallow embedding of the TripWeaver frontend session core.

Sources embedded here:
  frontend/src/types/index.ts          (data model)
  frontend/src/reducers/tripReducer.ts (session state machine)
  the TripContext provider (searchTrip / clearResults, streaming and
  fallback transports) and the PDF export routine (exportToPDF), plus
  formatPrice from frontend/src/components/TripResults.tsx.

The TypeScript runtime is untyped: the SEARCH_PROGRESS payload is `any`
and SEARCH_SUCCESS reads `payload.plan` / `payload.logs` off whatever
object arrives, so the reducer is modelled polymorphically in the plan
type and the log-entry type; the declared TS types are recovered by
instantiating `Plan := TripPlan`, `LogEntry := ProcessingLog`. -/

/-- TripRequest from types/index.ts. The `constraints` record is an
association list of string keys to string values. -/
structure TripRequest where
  origin : String
  destination : String
  start_date : String
  end_date : String
  hobbies : List String
  adults : Nat
  budget_level : String
  trip_type : String
  constraints : List (String × String)
  deriving DecidableEq, Repr

/-- Flight from types/index.ts; `?` fields become `Option`. JS numbers
are modelled as rationals. -/
structure Flight where
  summary : String
  depart_time : Option String
  arrive_time : Option String
  airline : Option String
  stops : Option Nat
  est_price : Option ℚ
  currency : Option String
  booking_links : Option (List String)
  deriving DecidableEq, Repr

/-- Stay from types/index.ts. -/
structure Stay where
  name : String
  area : String
  est_price_per_night : Option ℚ
  currency : Option String
  score : Option ℚ
  highlights : Option (List String)
  booking_links : Option (List String)
  deriving DecidableEq, Repr

/-- Activity from types/index.ts. -/
structure Activity where
  title : String
  location : String
  duration_hours : Option ℚ
  est_price : Option ℚ
  currency : Option String
  source_url : Option String
  tags : Option (List String)
  deriving DecidableEq, Repr

/-- DayPlan from types/index.ts. -/
structure DayPlan where
  date : String
  morning : Option Activity
  afternoon : Option Activity
  evening : Option Activity
  deriving DecidableEq, Repr

/-- TripPlan from types/index.ts. -/
structure TripPlan where
  flights : List Flight
  stays : List Stay
  activities : List DayPlan
  deriving DecidableEq, Repr

/-- ProcessingLog from types/index.ts. -/
structure ProcessingLog where
  stage : String
  raw_count : Nat
  refined_count : Nat
  error : Option String
  message : Option String
  deriving DecidableEq, Repr

/-- TripResponse from types/index.ts, polymorphic for the reasons stated
in the header comment. -/
structure TripResponse (Plan LogEntry : Type) where
  plan : Plan
  logs : List LogEntry
  success : Bool
  message : String
  deriving DecidableEq, Repr

/-- AppState from types/index.ts. -/
structure AppState (Plan LogEntry : Type) where
  isLoading : Bool
  tripPlan : Option Plan
  logs : List LogEntry
  error : Option String
  lastSearch : Option TripRequest
  deriving DecidableEq, Repr

/-- TripAction from reducers/tripReducer.ts. -/
inductive TripAction (Plan LogEntry : Type) where
  | searchStart (payload : TripRequest)
  | searchSuccess (payload : TripResponse Plan LogEntry)
  | searchError (payload : String)
  | searchProgress (payload : LogEntry)
  | clearResults
  deriving DecidableEq, Repr

/-- The reducer from reducers/tripReducer.ts, case by case.  Note what
each case does NOT touch: SEARCH_START spreads the previous state and
only overwrites isLoading, error and lastSearch (tripPlan and logs are
kept); CLEAR_RESULTS overwrites everything except isLoading. -/
def tripReducer {Plan LogEntry : Type} (state : AppState Plan LogEntry)
    (action : TripAction Plan LogEntry) : AppState Plan LogEntry :=
  match action with
  | .searchStart payload =>
      { state with isLoading := true, error := none, lastSearch := some payload }
  | .searchSuccess payload =>
      { state with isLoading := false, tripPlan := some payload.plan,
                   logs := payload.logs, error := none }
  | .searchProgress payload =>
      { state with isLoading := true, logs := state.logs ++ [payload] }
  | .searchError payload =>
      { state with isLoading := false, error := some payload,
                   tripPlan := none, logs := [] }
  | .clearResults =>
      { state with tripPlan := none, logs := [], error := none, lastSearch := none }

/-- initialState from the TripContext provider. -/
def initialState (Plan LogEntry : Type) : AppState Plan LogEntry :=
  { isLoading := false, tripPlan := none, logs := [], error := none, lastSearch := none }

/-- Folding a sequence of dispatched actions through the reducer, in
dispatch order (useReducer applies actions one at a time). -/
def runActions {Plan LogEntry : Type} (s : AppState Plan LogEntry)
    (acts : List (TripAction Plan LogEntry)) : AppState Plan LogEntry :=
  acts.foldl tripReducer s

/-! Concrete example values, used by counterexamples and witnesses.
The request is the example scenario from the spec. -/

/-- The example TripRequest from the spec scenario. -/
def exampleRequest : TripRequest :=
  { origin := "NBO", destination := "Dubai", start_date := "2025-11-10",
    end_date := "2025-11-16", hobbies := ["golf"], adults := 2,
    budget_level := "mid", trip_type := "honeymoon", constraints := [] }

/-- An empty TripPlan. -/
def examplePlan : TripPlan := { flights := [], stays := [], activities := [] }

/-- A successful TripResponse carrying one server-side log entry. -/
def exampleResponse : TripResponse TripPlan Nat :=
  { plan := examplePlan, logs := [1], success := true, message := "ok" }

/-- A successful TripResponse whose logs list is empty. -/
def emptyLogsResponse : TripResponse TripPlan Nat :=
  { plan := examplePlan, logs := [], success := true, message := "ok" }

/-- A reachable Succeeded state: initial state, then SEARCH_START and
SEARCH_SUCCESS. -/
def succeededState : AppState TripPlan Nat :=
  runActions (initialState TripPlan Nat)
    [.searchStart exampleRequest, .searchSuccess exampleResponse]

/-- A reachable Searching state: initial state, then SEARCH_START. -/
def searchingState : AppState TripPlan Nat :=
  runActions (initialState TripPlan Nat) [.searchStart exampleRequest]

/-! JSON values, JavaScript truthiness and the streaming message handler
from the TripContext provider (searchTrip, streaming branch). -/

/-- A parsed JSON value, as produced by JSON.parse on an SSE message. -/
inductive Json where
  | null
  | bool (b : Bool)
  | num (q : ℚ)
  | str (s : String)
  | arr (elems : List Json)
  | obj (fields : List (String × Json))

/-- JavaScript truthiness of a value: null, false, 0 and the empty
string are falsy; arrays and objects are always truthy. -/
def Json.truthy : Json → Bool
  | .null => false
  | .bool b => b
  | .num q => q != 0
  | .str s => s != ""
  | .arr _ => true
  | .obj _ => true

/-- JavaScript property access `v.key` on a parsed JSON value.  Among
the values JSON.parse can produce, null is the only one on which
property access THROWS a TypeError; an object yields its field (or
undefined, modelled `none`, when absent), and every other value
(booleans, numbers, strings, arrays) yields undefined for the keys this
code reads.  The thrown error carries no payload here because TypeError
text is host-generated; where that message surfaces (the fallback catch
block) it is supplied as an explicit parameter. -/
def Json.getField : Json → String → Except Unit (Option Json)
  | .null, _ => .error ()
  | .obj fields, key => .ok (fields.lookup key)
  | _, _ => .ok none

/-- Truthiness of a possibly-undefined value (undefined is falsy). -/
def truthyOpt : Option Json → Bool
  | none => false
  | some v => v.truthy

/-- JavaScript strict equality `v === s` against a string literal. -/
def isStrEq (v : Json) (s : String) : Bool :=
  match v with
  | .str t => t == s
  | _ => false

/-- The value of `stageField || "progress"` given the (non-throwing)
result of the stage read: the field if present and truthy, else
"progress". -/
def stageValue (stageField : Option Json) : Json :=
  match stageField with
  | some v => if v.truthy then v else Json.str "progress"
  | none => Json.str "progress"

/-- The value of the `payload.stage || "progress"` expression when the
stage access does not throw (it throws only on a null payload, which
never reaches a use of this value). -/
def stageOf (payload : Json) : Json :=
  match payload.getField "stage" with
  | .ok stageField => stageValue stageField
  | .error _ => Json.str "progress"

/-- JavaScript string coercion String(v), as applied by the Error
constructor to a non-string message value. -/
def jsDisplayString : Json → String
  | .str s => s
  | .num q => toString q
  | .bool b => if b then "true" else "false"
  | .null => "null"
  | .arr es => String.intercalate "," (es.attach.map fun e => jsDisplayString e.1)
  | .obj _ => "[object Object]"
decreasing_by
  simp only [Json.arr.sizeOf_spec]
  have := List.sizeOf_lt_of_mem e.2
  omega

/-- The dispatch a single streaming message produces. -/
inductive StreamAction where
  | success (result : Json)
  | progress (payload : Json)

/-- The body of the es.onmessage handler on a successfully parsed
payload, as an exception-throwing computation (property access on a
null payload throws).  Stage "result" with a truthy result payload
dispatches success and closes; the `&&` is short-circuiting, so
`payload.result` is only read when the stage test passed; stage
"complete" is a no-op; anything else dispatches progress with the whole
payload. -/
def handleMessageE (payload : Json) : Except Unit (Option StreamAction × Bool) :=
  match payload.getField "stage" with
  | .error e => .error e
  | .ok stageField =>
      let stage := stageValue stageField
      if isStrEq stage "result" then
        match payload.getField "result" with
        | .error e => .error e
        | .ok resultField =>
            if truthyOpt resultField then
              .ok (resultField.map StreamAction.success, true)
            else if isStrEq stage "complete" then .ok (none, false)
            else .ok (some (.progress payload), false)
      else if isStrEq stage "complete" then .ok (none, false)
      else .ok (some (.progress payload), false)

/-- The onmessage handler around its try/catch: a TypeError thrown by
the handler body (a null payload) is swallowed exactly like a parse
failure — no dispatch, and the stream stays open. -/
def handleMessage (payload : Json) : Option StreamAction × Bool :=
  match handleMessageE payload with
  | .ok r => r
  | .error _ => (none, false)

/-- One inbound SSE message: `none` models event.data that JSON.parse
rejects, which the try/catch swallows without closing the stream. -/
def handleEvent : Option Json → Option StreamAction × Bool
  | none => (none, false)
  | some payload => handleMessage payload

/-! The session controller.  Each searchTrip call dispatches
SEARCH_START and constructs a fresh EventSource whose onmessage and
onerror handlers dispatch into the shared reducer.  Nothing in the
source stores, closes or unsubscribes the previous EventSource when a
new search starts: a channel is closed only by its own result message
or its own transport error.  The controller state therefore carries the
open/closed status of every EventSource created so far, and events are
delivered tagged with the index of the EventSource they arrive on. -/

/-- Controller state: the reducer state plus one open/closed flag per
EventSource created so far. -/
structure CtrlState (Plan LogEntry : Type) where
  app : AppState Plan LogEntry
  channels : List Bool

/-- External stimuli of the controller: a startSearch invocation, an
SSE message arriving on channel `channel` (with `none` for a payload
JSON.parse rejects), or a transport-level error on that channel. -/
inductive CtrlEvent where
  | startSearch (request : TripRequest)
  | deliver (channel : Nat) (data : Option Json)
  | connError (channel : Nat)

/-- Dispatching the action produced by a streaming message.  `castResp`
models the unchecked `payload.result as TripResponse` cast and
`castLog` the untyped progress payload flowing into `logs`. -/
def applyStreamAction {Plan LogEntry : Type}
    (castResp : Json → TripResponse Plan LogEntry) (castLog : Json → LogEntry)
    (app : AppState Plan LogEntry) : Option StreamAction → AppState Plan LogEntry
  | none => app
  | some (.success r) => tripReducer app (.searchSuccess (castResp r))
  | some (.progress p) => tripReducer app (.searchProgress (castLog p))

/-- One controller step.  A delivered event on a closed channel has no
effect (a closed EventSource emits nothing); on an open channel the
onmessage body runs, dispatching into the shared reducer no matter
which channel the event came from.  A transport error closes its
channel and, through the rejected promise and the searchTrip catch
block, dispatches SEARCH_ERROR with the fixed message. -/
def stepCtrl {Plan LogEntry : Type}
    (castResp : Json → TripResponse Plan LogEntry) (castLog : Json → LogEntry)
    (s : CtrlState Plan LogEntry) : CtrlEvent → CtrlState Plan LogEntry
  | .startSearch r =>
      { app := tripReducer s.app (.searchStart r), channels := s.channels ++ [true] }
  | .deliver channel data =>
      if s.channels.getD channel false then
        let handled := handleEvent data
        { app := applyStreamAction castResp castLog s.app handled.1,
          channels := if handled.2 then s.channels.set channel false else s.channels }
      else s
  | .connError channel =>
      if s.channels.getD channel false then
        { app := tripReducer s.app (.searchError "Streaming connection error"),
          channels := s.channels.set channel false }
      else s

/-- Folding a sequence of controller events (JavaScript is
single-threaded, so an execution is one interleaved event sequence). -/
def runCtrl {Plan LogEntry : Type}
    (castResp : Json → TripResponse Plan LogEntry) (castLog : Json → LogEntry)
    (s : CtrlState Plan LogEntry) (events : List CtrlEvent) : CtrlState Plan LogEntry :=
  events.foldl (stepCtrl castResp castLog) s

/-- Controller state at provider construction: initial reducer state,
no EventSource created yet. -/
def initCtrl (Plan LogEntry : Type) : CtrlState Plan LogEntry :=
  { app := initialState Plan LogEntry, channels := [] }

/-- The untyped-runtime reading of a result payload, for the
instantiation Plan := Json, LogEntry := Json: field reads off the
payload object, as the reducer and the UI perform them.  The handler
only dispatches success for a truthy (hence non-null) result payload,
so the throwing branch of the reads is unreachable in the modelled
flows and collapsed to the defaults here. -/
def castRespJ (j : Json) : TripResponse Json Json :=
  { plan := match j.getField "plan" with | .ok (some v) => v | _ => Json.null,
    logs := match j.getField "logs" with | .ok (some (.arr xs)) => xs | _ => [],
    success := match j.getField "success" with | .ok o => truthyOpt o | _ => false,
    message := match j.getField "message" with | .ok (some (.str s)) => s | _ => "" }

/-- A progress-stage SSE message. -/
def progressMsg : Json := Json.obj [("stage", Json.str "Destination Research")]

/-- A result-stage SSE message. -/
def resultMsg : Json :=
  Json.obj [("stage", Json.str "result"), ("result", Json.obj [("plan", Json.null)])]

/-- A complete-stage SSE message. -/
def completeMsg : Json := Json.obj [("stage", Json.str "complete")]

/-- A second, distinct TripRequest. -/
def exampleRequest2 : TripRequest := { exampleRequest with destination := "Paris" }

/-! The fallback (non-streaming) branch of searchTrip: one fetch of
POST /plan-trip. -/

/-- An HTTP response as the fallback branch observes it: the ok flag
and the body, with `none` for a body response.json() fails to parse
(the thrown SyntaxError is an Error, so the catch block surfaces the
message of the parser itself). -/
structure HttpResponse where
  ok : Bool
  body : Option Json

/-- What the fallback branch dispatches for a response. -/
inductive FallbackOutcome where
  | success (data : Json)
  | failure (message : String)

/-- The fallback branch outcome.  A non-ok response evaluates
`errorData.detail`: on the JSON body null that access itself throws a
TypeError, which — being an Error — reaches the catch block and is
surfaced as SEARCH_ERROR with the host-generated TypeError message
(`typeErrorMessage`); otherwise the code throws
Error(errorData.detail || generic) and the catch block dispatches
SEARCH_ERROR with that message.  `parseErrorMessage` is the message of
the SyntaxError the JSON parser of the host platform throws for an
unparseable body. -/
def fallbackDispatch (parseErrorMessage typeErrorMessage : String)
    (resp : HttpResponse) : FallbackOutcome :=
  if resp.ok then
    match resp.body with
    | some data => .success data
    | none => .failure parseErrorMessage
  else
    match resp.body with
    | some errorData =>
        (match errorData.getField "detail" with
          | .error _ => .failure typeErrorMessage
          | .ok (some d) =>
              if d.truthy then .failure (jsDisplayString d)
              else .failure "Failed to generate trip plan"
          | .ok none => .failure "Failed to generate trip plan")
    | none => .failure parseErrorMessage

/-- A whole fallback-mode searchTrip call: SEARCH_START, then the
single terminal dispatch determined by the response.  The try/catch
turns every failure — including the thrown TypeError and SyntaxError —
into a SEARCH_ERROR dispatch, so this function is total: no exception
escapes the public operation. -/
def fallbackRun {Plan LogEntry : Type}
    (castResp : Json → TripResponse Plan LogEntry)
    (parseErrorMessage typeErrorMessage : String)
    (s : AppState Plan LogEntry) (request : TripRequest) (resp : HttpResponse) :
    AppState Plan LogEntry :=
  let s1 := tripReducer s (.searchStart request)
  match fallbackDispatch parseErrorMessage typeErrorMessage resp with
  | .success data => tripReducer s1 (.searchSuccess (castResp data))
  | .failure m => tripReducer s1 (.searchError m)

/-- The HTTP 400 response of the spec example. -/
def badRequest400 : HttpResponse :=
  { ok := false,
    body := some (Json.obj [("detail", Json.str "End date must be after start date")]) }

/-- A non-ok response whose detail field is present but empty. -/
def emptyDetail400 : HttpResponse :=
  { ok := false, body := some (Json.obj [("detail", Json.str "")]) }

/-- A non-ok response whose body is the JSON text null. -/
def nullBody400 : HttpResponse :=
  { ok := false, body := some Json.null }

/-! The PDF export routine exportToPDF and formatPrice from
TripResults.  The vertical layout is a fold over a sequence of cursor
operations: checkNewPage(required) and cursor advances.  The advance of
each addText call is lines * fontSize * 0.4 where lines is the line
count jsPDF computes from the text and the wrap width; those font
metrics, along with toLocaleString / toLocaleDateString number and date
formatting, are host-environment functions, kept abstract in a Metrics
record.  Every advance is a line count times a positive constant or a
literal constant from the source, hence non-negative by construction:
advances carry the non-negative rationals. -/

/-- Host-environment text metrics and formatters used by exportToPDF
and formatPrice. -/
structure Metrics where
  pageWidth : ℚ
  pageHeight : ℚ
  numLines : String → ℚ → Nat
  locNum : ℚ → String
  locDate : String → String
  numStr : ℚ → String

/-- One vertical-cursor operation of the layout pass: checkNewPage with
its required space, or a cursor advance. -/
inductive LayoutOp where
  | ensure (required : NNRat)
  | advance (dy : NNRat)

/-- Pagination state: the current page count and the cursor position. -/
structure LayoutState where
  pages : Nat
  y : ℚ

/-- One layout step.  checkNewPage: if yPosition + requiredSpace >
pageHeight - 20, add a page and reset the cursor to the 20pt top
margin.  An advance just moves the cursor (addText never adds pages
itself). -/
def stepOp (pageHeight : ℚ) (s : LayoutState) : LayoutOp → LayoutState
  | .ensure required =>
      if s.y + (required : ℚ) > pageHeight - 20 then { pages := s.pages + 1, y := 20 }
      else s
  | .advance dy => { s with y := s.y + (dy : ℚ) }

/-- Folding a sequence of layout operations. -/
def runOps (pageHeight : ℚ) (s : LayoutState) (ops : List LayoutOp) : LayoutState :=
  ops.foldl (stepOp pageHeight) s

/-- The cursor advance of one addText call: splitTextToSize line count
times fontSize * 0.4. -/
def textAdvance (M : Metrics) (text : String) (maxWidth : ℚ) (fontSize : NNRat) : NNRat :=
  (M.numLines text maxWidth : NNRat) * fontSize * (2 / 5)

/-- JavaScript `o || d` for an optional string (empty string is falsy),
as in `flight.currency || "USD"`. -/
def strOr (o : Option String) (d : String) : String :=
  match o with
  | some s => if s = "" then d else s
  | none => d

/-- formatPrice from TripResults.tsx: `!price` is true for an absent
price AND for a present price of 0, so both render the placeholder. -/
def formatPrice (M : Metrics) (price : Option ℚ) (currency : Option String) : String :=
  match price with
  | none => "Price not available"
  | some p =>
      if p = 0 then "Price not available"
      else strOr currency "USD" ++ " " ++ M.locNum p

/-- Layout operations of one flight entry (the flights forEach body).
Note the truthiness guards: the departure/arrival line needs both
strings present and non-empty, the stops line only needs the field
present (stops === 0 renders "Direct"), and the price line needs a
present AND non-zero est_price. -/
def flightOps (M : Metrics) (index : Nat) (flight : Flight) : List LayoutOp :=
  [LayoutOp.ensure 25,
   LayoutOp.advance (textAdvance M (toString (index + 1) ++ ". " ++ flight.summary)
      (M.pageWidth - 40) 12)]
  ++ (match flight.depart_time, flight.arrive_time with
      | some dep, some arr =>
          if dep ≠ "" ∧ arr ≠ "" then
            [LayoutOp.advance (textAdvance M
                ("Departure: " ++ dep ++ " | Arrival: " ++ arr) (M.pageWidth - 40) 12)]
          else []
      | _, _ => [])
  ++ (match flight.stops with
      | some stops =>
          [LayoutOp.advance (textAdvance M
              ("Stops: " ++ (if stops = 0 then "Direct" else toString stops))
              (M.pageWidth - 40) 12)]
      | none => [])
  ++ (match flight.est_price with
      | some p =>
          if p = 0 then []
          else
            [LayoutOp.advance (textAdvance M
                ("Price: " ++ strOr flight.currency "USD" ++ " " ++ M.locNum p)
                (M.pageWidth - 40) 12)]
      | none => [])
  ++ [LayoutOp.advance 5]

/-- The flights forEach loop, carrying the running entry index. -/
def flightsBody (M : Metrics) (index : Nat) : List Flight → List LayoutOp
  | [] => []
  | f :: fs => flightOps M index f ++ flightsBody M (index + 1) fs

/-- The flights section: skipped when the list is empty, else
checkNewPage(30), the title advance of 15, the loop, and the trailing
advance of 10. -/
def flightsSection (M : Metrics) (flights : List Flight) : List LayoutOp :=
  if 0 < flights.length then
    [LayoutOp.ensure 30, LayoutOp.advance 15] ++ flightsBody M 0 flights
      ++ [LayoutOp.advance 10]
  else []

/-- Layout operations of one stay entry.  score and price lines need a
truthy (non-zero) value; the highlights line needs a present, non-empty
array. -/
def stayOps (M : Metrics) (index : Nat) (stay : Stay) : List LayoutOp :=
  [LayoutOp.ensure 30,
   LayoutOp.advance (textAdvance M (toString (index + 1) ++ ". " ++ stay.name)
      (M.pageWidth - 40) 12),
   LayoutOp.advance (textAdvance M ("Location: " ++ stay.area) (M.pageWidth - 40) 12)]
  ++ (match stay.score with
      | some score =>
          if score = 0 then []
          else
            [LayoutOp.advance (textAdvance M ("Rating: " ++ M.numStr score ++ "/10")
                (M.pageWidth - 40) 12)]
      | none => [])
  ++ (match stay.est_price_per_night with
      | some p =>
          if p = 0 then []
          else
            [LayoutOp.advance (textAdvance M
                ("Price: " ++ strOr stay.currency "USD" ++ " " ++ M.locNum p ++ "/night")
                (M.pageWidth - 40) 12)]
      | none => [])
  ++ (match stay.highlights with
      | some hs =>
          if 0 < hs.length then
            [LayoutOp.advance (textAdvance M
                ("Highlights: " ++ String.intercalate ", " hs) (M.pageWidth - 40) 12)]
          else []
      | none => [])
  ++ [LayoutOp.advance 5]

/-- The stays forEach loop. -/
def staysBody (M : Metrics) (index : Nat) : List Stay → List LayoutOp
  | [] => []
  | st :: sts => stayOps M index st ++ staysBody M (index + 1) sts

/-- The accommodations section. -/
def staysSection (M : Metrics) (stays : List Stay) : List LayoutOp :=
  if 0 < stays.length then
    [LayoutOp.ensure 30, LayoutOp.advance 15] ++ staysBody M 0 stays
      ++ [LayoutOp.advance 10]
  else []

/-- Layout operations of one time-slot activity (checkNewPage(20), the
slot/title and location lines, then truthiness-guarded duration, price
and tags lines, and the trailing advance of 3). -/
def activityOps (M : Metrics) (slotLabel : String) (a : Activity) : List LayoutOp :=
  [LayoutOp.ensure 20,
   LayoutOp.advance (textAdvance M (slotLabel ++ ": " ++ a.title) (M.pageWidth - 50) 12),
   LayoutOp.advance (textAdvance M ("Location: " ++ a.location) (M.pageWidth - 50) 12)]
  ++ (match a.duration_hours with
      | some d =>
          if d = 0 then []
          else
            [LayoutOp.advance (textAdvance M ("Duration: " ++ M.numStr d ++ " hours")
                (M.pageWidth - 50) 12)]
      | none => [])
  ++ (match a.est_price with
      | some p =>
          if p = 0 then []
          else
            [LayoutOp.advance (textAdvance M
                ("Price: " ++ strOr a.currency "USD" ++ " " ++ M.locNum p)
                (M.pageWidth - 50) 12)]
      | none => [])
  ++ (match a.tags with
      | some ts =>
          if 0 < ts.length then
            [LayoutOp.advance (textAdvance M ("Tags: " ++ String.intercalate ", " ts)
                (M.pageWidth - 50) 12)]
          else []
      | none => [])
  ++ [LayoutOp.advance 3]

/-- One optional time slot of a day. -/
def slotOps (M : Metrics) (slotLabel : String) : Option Activity → List LayoutOp
  | some a => activityOps M slotLabel a
  | none => []

/-- Layout operations of one itinerary day: checkNewPage(40), the day
header and its advance of 5, the three time slots, and the trailing
advance of 5. -/
def dayOps (M : Metrics) (dayIndex : Nat) (day : DayPlan) : List LayoutOp :=
  [LayoutOp.ensure 40,
   LayoutOp.advance (textAdvance M
      ("Day " ++ toString (dayIndex + 1) ++ " - " ++ M.locDate day.date)
      (M.pageWidth - 40) 12),
   LayoutOp.advance 5]
  ++ slotOps M "Morning" day.morning
  ++ slotOps M "Afternoon" day.afternoon
  ++ slotOps M "Evening" day.evening
  ++ [LayoutOp.advance 5]

/-- The activities forEach loop. -/
def daysBody (M : Metrics) (index : Nat) : List DayPlan → List LayoutOp
  | [] => []
  | d :: ds => dayOps M index d ++ daysBody M (index + 1) ds

/-- The daily-itinerary section (no trailing advance in the source). -/
def activitiesSection (M : Metrics) (days : List DayPlan) : List LayoutOp :=
  if 0 < days.length then
    [LayoutOp.ensure 30, LayoutOp.advance 15] ++ daysBody M 0 days
  else []

/-- The trip-summary section, rendered only when a lastSearch request
is present. -/
def summaryOps (M : Metrics) (request : TripRequest) : List LayoutOp :=
  [LayoutOp.advance 15,
   LayoutOp.advance (textAdvance M ("From: " ++ request.origin) (M.pageWidth - 40) 12),
   LayoutOp.advance (textAdvance M ("To: " ++ request.destination) (M.pageWidth - 40) 12),
   LayoutOp.advance (textAdvance M
      ("Dates: " ++ M.locDate request.start_date ++ " - " ++ M.locDate request.end_date)
      (M.pageWidth - 40) 12),
   LayoutOp.advance (textAdvance M ("Travelers: " ++ toString request.adults)
      (M.pageWidth - 40) 12),
   LayoutOp.advance (textAdvance M ("Budget: " ++ request.budget_level)
      (M.pageWidth - 40) 12),
   LayoutOp.advance (textAdvance M ("Trip Type: " ++ request.trip_type)
      (M.pageWidth - 40) 12)]
  ++ (if 0 < request.hobbies.length then
        [LayoutOp.advance (textAdvance M
            ("Interests: " ++ String.intercalate ", " request.hobbies)
            (M.pageWidth - 40) 12)]
      else [])
  ++ [LayoutOp.advance 10]

/-- The summary part of the document, if any. -/
def summaryPart (M : Metrics) : Option TripRequest → List LayoutOp
  | some r => summaryOps M r
  | none => []

/-- The full operation sequence of the content pass, in source order:
summary (if present), flights, accommodations, daily itinerary. -/
def exportOps (M : Metrics) (plan : TripPlan) (lastSearch : Option TripRequest) :
    List LayoutOp :=
  summaryPart M lastSearch ++ flightsSection M plan.flights
    ++ staysSection M plan.stays ++ activitiesSection M plan.activities

/-- Layout state when content rendering begins: the header band is on
page 1 and yPosition has been set to 40. -/
def initLayout : LayoutState := { pages := 1, y := 40 }

/-- The footer pass: for every page i of the finished document, a
"Page i of totalPages" stamp; modelled as (page number, total shown)
pairs. -/
def stampFooters (totalPages : Nat) : List (Nat × Nat) :=
  (List.range totalPages).map (fun i => (i + 1, totalPages))

/-- The generated document: its page count and its stamped footers.
The footer pass runs after the whole content pass, off the final page
count. -/
structure ExportedDoc where
  pages : Nat
  footers : List (Nat × Nat)

/-- exportToPDF: run the content pass, then stamp every page with the
final total. -/
def exportToPDF (M : Metrics) (plan : TripPlan) (lastSearch : Option TripRequest) :
    ExportedDoc :=
  { pages := (runOps M.pageHeight initLayout (exportOps M plan lastSearch)).pages,
    footers := stampFooters (runOps M.pageHeight initLayout (exportOps M plan lastSearch)).pages }

/-- The pagination preorder: fewer pages, or equal pages and a cursor
no lower on the page. -/
def layLE (s t : LayoutState) : Prop :=
  s.pages < t.pages ∨ (s.pages = t.pages ∧ s.y ≤ t.y)

/-- The cursor invariant: the cursor never sits above the 20pt top
margin once content rendering has begun. -/
def yInv (s : LayoutState) : Prop := 20 ≤ s.y

/-- Helper: a fold of SEARCH_PROGRESS actions never changes lastSearch. -/
lemma foldl_progress_lastSearch {Plan LogEntry : Type}
    (ps : List LogEntry) (s : AppState Plan LogEntry) :
    (List.foldl tripReducer s (ps.map .searchProgress)).lastSearch = s.lastSearch := by
  induction ps generalizing s with
  | nil => rfl
  | cons p ps ih => simpa [tripReducer] using ih (tripReducer s (.searchProgress p))

/-- C1 counterexample.  The claim asserts that SearchStart from any state,
in particular Succeeded, leaves logs = [] and tripPlan = null.  From the
reachable Succeeded state it does neither: the SEARCH_START case spreads
the previous state and does not touch tripPlan or logs. -/
theorem C1_counterexample :
    ¬ ((tripReducer succeededState (.searchStart exampleRequest)).tripPlan = none
        ∧ (tripReducer succeededState (.searchStart exampleRequest)).logs = []) := by
  decide

/-- C1 (amended): SearchStart(r) sets isLoading = true, error = null and
lastSearch = r, but retains the previous tripPlan and logs unchanged:
a prior Succeeded/Failed payload is not discarded by a new SearchStart. -/
theorem C1_searchStart_retains_payload {Plan LogEntry : Type}
    (s : AppState Plan LogEntry) (r : TripRequest) :
    tripReducer s (.searchStart r) =
      { isLoading := true, tripPlan := s.tripPlan, logs := s.logs,
        error := none, lastSearch := some r } := rfl

/-- The single-state invariant that does survive: error and tripPlan are
never simultaneously populated. -/
def errorPlanExclusive {Plan LogEntry : Type} (s : AppState Plan LogEntry) : Prop :=
  s.error = none ∨ s.tripPlan = none

/-- Helper: every reducer step preserves the error/tripPlan exclusion. -/
lemma tripReducer_preserves_exclusive {Plan LogEntry : Type}
    (s : AppState Plan LogEntry) (a : TripAction Plan LogEntry)
    (h : errorPlanExclusive s) : errorPlanExclusive (tripReducer s a) := by
  cases a with
  | searchStart r => exact Or.inl rfl
  | searchSuccess p => exact Or.inl rfl
  | searchProgress p => exact h
  | searchError m => exact Or.inr rfl
  | clearResults => exact Or.inl rfl

/-- Helper: the exclusion is preserved by any action sequence. -/
lemma runActions_preserves_exclusive {Plan LogEntry : Type}
    (acts : List (TripAction Plan LogEntry)) (s : AppState Plan LogEntry)
    (h : errorPlanExclusive s) : errorPlanExclusive (runActions s acts) := by
  induction acts generalizing s with
  | nil => exact h
  | cons a acts ih => exact ih _ (tripReducer_preserves_exclusive s a h)

/-- C3 counterexample.  The claim asserts that in every reachable state
isLoading is true only in Searching and tripPlan is populated only in
Succeeded, hence never isLoading together with a terminal payload.  The
reachable state after SearchStart, SearchSuccess, SearchStart has
isLoading = true and a non-null tripPlan at the same time. -/
theorem C3_counterexample :
    (runActions (initialState TripPlan Nat)
        [.searchStart exampleRequest, .searchSuccess exampleResponse,
         .searchStart exampleRequest]).isLoading = true
    ∧ (runActions (initialState TripPlan Nat)
        [.searchStart exampleRequest, .searchSuccess exampleResponse,
         .searchStart exampleRequest]).tripPlan ≠ none := by
  decide

/-- C3 (amended): in every state reachable from the initial state, error
and tripPlan are never both non-null — that part of the exclusivity
invariant holds.  The rest of the claimed invariant fails: tripPlan can
be non-null while isLoading is true (see the counterexample), because
SEARCH_START keeps the previous payload. -/
theorem C3_reachable_error_plan_exclusive {Plan LogEntry : Type}
    (acts : List (TripAction Plan LogEntry)) :
    (runActions (initialState Plan LogEntry) acts).error = none
      ∨ (runActions (initialState Plan LogEntry) acts).tripPlan = none :=
  runActions_preserves_exclusive acts _ (Or.inl rfl)

/-- C4 counterexample.  The claim asserts that after SearchStart, one
SearchProgress p, then SearchSuccess(plan, l), the final logs are the
concatenation of the progress payloads, here [7].  The SEARCH_SUCCESS
case overwrites logs with the logs list of the success payload (here []), so
the accumulated progress entries are discarded. -/
theorem C4_counterexample :
    ¬ ((runActions (initialState TripPlan Nat)
        [.searchStart exampleRequest, .searchProgress 7,
         .searchSuccess emptyLogsResponse]).logs = [7]) := by
  decide

/-- C4 (amended): for every sequence SearchStart(r), n ≥ 0 progress
events, then SearchSuccess(plan, l), the final state is Succeeded with
isLoading = false, error = null, tripPlan = plan, lastSearch = r, and
logs equal to the logs list l of the success payload — not the concatenation
of the progress payloads, which SEARCH_SUCCESS overwrites. -/
theorem C4_success_final_state {Plan LogEntry : Type}
    (s : AppState Plan LogEntry) (r : TripRequest) (ps : List LogEntry)
    (resp : TripResponse Plan LogEntry) :
    runActions s (.searchStart r :: (ps.map .searchProgress ++ [.searchSuccess resp])) =
      { isLoading := false, tripPlan := some resp.plan, logs := resp.logs,
        error := none, lastSearch := some r } := by
  unfold runActions
  rw [List.foldl_cons, List.foldl_append, List.foldl_cons, List.foldl_nil]
  have hls := foldl_progress_lastSearch ps (tripReducer s (.searchStart r))
  simp only [tripReducer] at hls ⊢
  rw [hls]

/-- C5 counterexample.  The claim asserts ClearResults always yields Idle
with isLoading = false, but the CLEAR_RESULTS case does not touch
isLoading: from the reachable Searching state it stays true. -/
theorem C5_counterexample :
    ¬ ((tripReducer searchingState .clearResults).isLoading = false) := by
  decide

/-- C5 (amended): ClearResults resets tripPlan, logs, error and
lastSearch, but preserves the current isLoading flag; only from a
non-loading state does it yield exactly Idle. -/
theorem C5_clearResults_resets_except_loading {Plan LogEntry : Type}
    (s : AppState Plan LogEntry) :
    tripReducer s .clearResults =
      { isLoading := s.isLoading, tripPlan := none, logs := [],
        error := none, lastSearch := none } := rfl

/-- C8 (confirmed): for every sequence SearchStart(r), n ≥ 0 progress
events, then SearchError(m), the final state is Failed with error = m,
tripPlan = null and logs reset to [], regardless of how many progress
events preceded the failure; lastSearch stays r. -/
theorem C8_error_final_state {Plan LogEntry : Type}
    (s : AppState Plan LogEntry) (r : TripRequest) (ps : List LogEntry)
    (m : String) :
    runActions s (.searchStart r :: (ps.map .searchProgress ++ [.searchError m])) =
      { isLoading := false, tripPlan := none, logs := [],
        error := some m, lastSearch := some r } := by
  unfold runActions
  rw [List.foldl_cons, List.foldl_append, List.foldl_cons, List.foldl_nil]
  have hls := foldl_progress_lastSearch ps (tripReducer s (.searchStart r))
  simp only [tripReducer] at hls ⊢
  rw [hls]

/-- Helper: a true isStrEq test identifies the value as that string. -/
lemma isStrEq_eq_true {v : Json} {s : String} (h : isStrEq v s = true) :
    v = .str s := by
  cases v <;> simp [isStrEq] at h ⊢
  exact h

/-- C2 counterexample.  The claim asserts a late event from a
superseded exchange never changes the current state.  After two
startSearch invocations nothing has closed the first EventSource, and a
progress message delivered on it is dispatched into the reducer: the
state (its logs) changes. -/
theorem C2_counterexample :
    (runCtrl castRespJ (fun j => j) (initCtrl Json Json)
        [.startSearch exampleRequest, .startSearch exampleRequest2,
         .deliver 0 (some progressMsg)]).app
      ≠ (runCtrl castRespJ (fun j => j) (initCtrl Json Json)
          [.startSearch exampleRequest, .startSearch exampleRequest2]).app := by
  intro h
  have h1 : (runCtrl castRespJ (fun j => j) (initCtrl Json Json)
      [.startSearch exampleRequest, .startSearch exampleRequest2,
       .deliver 0 (some progressMsg)]).app.logs = [progressMsg] := rfl
  have h2 : (runCtrl castRespJ (fun j => j) (initCtrl Json Json)
      [.startSearch exampleRequest, .startSearch exampleRequest2]).app.logs = [] := rfl
  rw [h, h2] at h1
  exact List.cons_ne_nil _ _ h1.symm

/-- C2 (amended): startSearch does not cancel or close the previous
exchange, so late events from a superseded exchange are not discarded:
an event on ANY channel that is still open (a channel closes only via
its own result message or its own transport error) runs the shared
onmessage body; in particular a late progress message appends its
payload to the current logs, leaving all channels open. -/
theorem C2_late_event_is_processed {Plan LogEntry : Type}
    (castResp : Json → TripResponse Plan LogEntry) (castLog : Json → LogEntry)
    (s : CtrlState Plan LogEntry) (channel : Nat) (data : Option Json) (p : Json)
    (hopen : s.channels.getD channel false = true)
    (hmsg : handleEvent data = (some (.progress p), false)) :
    (stepCtrl castResp castLog s (.deliver channel data)).app.logs
        = s.app.logs ++ [castLog p]
    ∧ (stepCtrl castResp castLog s (.deliver channel data)).channels = s.channels := by
  have hopen2 : s.channels[channel]?.getD false = true := by
    simpa [List.getD] using hopen
  constructor <;> simp [stepCtrl, hopen2, hmsg, applyStreamAction, tripReducer]

/-- C2 witness: the amended theorem applied to the concrete superseded
exchange of the counterexample. -/
theorem C2_late_event_is_processed_witness :
    (stepCtrl castRespJ (fun j => j)
        (runCtrl castRespJ (fun j => j) (initCtrl Json Json)
          [.startSearch exampleRequest, .startSearch exampleRequest2])
        (.deliver 0 (some progressMsg))).app.logs
      = (runCtrl castRespJ (fun j => j) (initCtrl Json Json)
          [.startSearch exampleRequest, .startSearch exampleRequest2]).app.logs
        ++ [progressMsg]
    ∧ (stepCtrl castRespJ (fun j => j)
        (runCtrl castRespJ (fun j => j) (initCtrl Json Json)
          [.startSearch exampleRequest, .startSearch exampleRequest2])
        (.deliver 0 (some progressMsg))).channels
      = (runCtrl castRespJ (fun j => j) (initCtrl Json Json)
          [.startSearch exampleRequest, .startSearch exampleRequest2]).channels :=
  C2_late_event_is_processed castRespJ (fun j => j) _ 0 (some progressMsg)
    progressMsg rfl rfl

/-- C6 counterexample.  The claim asserts every well-formed message
other than result/complete produces a progress action.  The message
whose body is the JSON text null parses successfully, has neither a
result nor a complete stage, and yet produces NO action: the
`payload.stage` access throws a TypeError that the onmessage try/catch
swallows, leaving the stream open. -/
theorem C6_counterexample :
    handleMessage Json.null = (none, false)
    ∧ handleMessage Json.null ≠ (some (.progress Json.null), false) := by
  refine ⟨rfl, fun h => ?_⟩
  have h2 : ((none : Option StreamAction), false)
      = (some (StreamAction.progress Json.null), false) := h
  simp at h2

/-- C6 (amended): on the streaming channel, an unparseable message is
dropped without closing the stream, and so is the parsed payload null,
whose stage access throws a TypeError that the try/catch swallows (no
action, stream stays open); a parsed message with stage "result" and a
truthy result payload dispatches exactly one success action and closes
the channel; stage "complete" dispatches nothing and keeps the channel
open; every other successfully parsed, non-null message — including one
whose stage is "result" but whose result payload is missing or falsy —
dispatches a progress action carrying the whole payload. -/
theorem C6_stream_message_dispatch (p r : Json) :
    (handleEvent none = (none, false))
    ∧ (handleMessage Json.null = (none, false))
    ∧ (isStrEq (stageOf p) "result" = true → p.getField "result" = .ok (some r) →
        r.truthy = true → handleMessage p = (some (.success r), true))
    ∧ (isStrEq (stageOf p) "complete" = true → handleMessage p = (none, false))
    ∧ (p ≠ Json.null → isStrEq (stageOf p) "result" = false →
        isStrEq (stageOf p) "complete" = false →
        handleMessage p = (some (.progress p), false))
    ∧ (∀ o, isStrEq (stageOf p) "result" = true → p.getField "result" = .ok o →
        truthyOpt o = false → handleMessage p = (some (.progress p), false)) := by
  refine ⟨rfl, rfl, ?_, ?_, ?_, ?_⟩
  · intro h1 h2 h3
    cases p
    case obj fields =>
      have hs : stageOf (Json.obj fields) = stageValue (fields.lookup "stage") := rfl
      rw [hs] at h1
      have h2l : fields.lookup "result" = some r := by
        have h2g : Json.getField (Json.obj fields) "result"
            = .ok (fields.lookup "result") := rfl
        exact Except.ok.inj (h2g.symm.trans h2)
      simp [handleMessage, handleMessageE, Json.getField, h1, h2l, truthyOpt, h3]
    all_goals simp [stageOf, Json.getField, stageValue, isStrEq] at h1
  · intro h1
    cases p
    case obj fields =>
      have hs : stageOf (Json.obj fields) = stageValue (fields.lookup "stage") := rfl
      rw [hs] at h1
      have hv := isStrEq_eq_true h1
      have hres : isStrEq (stageValue (fields.lookup "stage")) "result" = false := by
        rw [hv]; decide
      simp [handleMessage, handleMessageE, Json.getField, hres, h1]
    all_goals simp [stageOf, Json.getField, stageValue, isStrEq] at h1
  · intro h0 h1 h2
    cases p
    case null => exact absurd rfl h0
    case obj fields =>
      have hs : stageOf (Json.obj fields) = stageValue (fields.lookup "stage") := rfl
      rw [hs] at h1 h2
      simp [handleMessage, handleMessageE, Json.getField, h1, h2]
    all_goals rfl
  · intro o h1 h2 h3
    cases p
    case obj fields =>
      have hs : stageOf (Json.obj fields) = stageValue (fields.lookup "stage") := rfl
      rw [hs] at h1
      have hv := isStrEq_eq_true h1
      have hcomp : isStrEq (stageValue (fields.lookup "stage")) "complete" = false := by
        rw [hv]; decide
      have h2l : fields.lookup "result" = o := by
        have h2g : Json.getField (Json.obj fields) "result"
            = .ok (fields.lookup "result") := rfl
        exact Except.ok.inj (h2g.symm.trans h2)
      simp [handleMessage, handleMessageE, Json.getField, h1, h2l, h3, hcomp]
    all_goals simp [stageOf, Json.getField, stageValue, isStrEq] at h1

/-- C6 witness: the theorem applied to concrete result, complete,
progress and null messages. -/
theorem C6_stream_message_dispatch_witness :
    handleMessage resultMsg
      = (some (.success (Json.obj [("plan", Json.null)])), true)
    ∧ handleMessage completeMsg = (none, false)
    ∧ handleMessage progressMsg = (some (.progress progressMsg), false)
    ∧ handleMessage Json.null = (none, false)
    ∧ handleEvent none = (none, false) :=
  ⟨(C6_stream_message_dispatch resultMsg (Json.obj [("plan", Json.null)])).2.2.1
      rfl rfl rfl,
   (C6_stream_message_dispatch completeMsg completeMsg).2.2.2.1 rfl,
   (C6_stream_message_dispatch progressMsg progressMsg).2.2.2.2.1
      (by simp [progressMsg]) rfl rfl,
   (C6_stream_message_dispatch progressMsg progressMsg).2.1,
   (C6_stream_message_dispatch progressMsg progressMsg).1⟩

/-- C7 counterexample.  The claim says the Failed message equals the
server-provided detail field whenever it is present.  For a non-ok
response whose JSON body carries a present but empty detail, the code
takes the falsy branch of `errorData.detail || generic` and produces
the generic message, not the (empty) detail value. -/
theorem C7_counterexample :
    fallbackDispatch "Unexpected end of JSON input"
        "Cannot read properties of null" emptyDetail400
      = .failure "Failed to generate trip plan"
    ∧ fallbackDispatch "Unexpected end of JSON input"
        "Cannot read properties of null" emptyDetail400
      ≠ .failure "" := by
  refine ⟨rfl, fun h => ?_⟩
  have h2 : FallbackOutcome.failure "Failed to generate trip plan"
      = FallbackOutcome.failure "" := h
  injection h2 with hs
  exact (by decide : "Failed to generate trip plan" ≠ "") hs

/-- C7 (amended): in fallback mode every non-success response ends the
session in Failed and no exception escapes (fallbackRun is total): the
message is the detail field when it is present and non-empty; for a
JSON body whose detail read yields absent or empty it is the fixed
generic "Failed to generate trip plan"; for the JSON body null, whose
detail access throws a TypeError, it is the host-generated TypeError
message; for a body that fails to parse as JSON it is the error message
of the JSON parser itself.  In particular the HTTP 400 example with
detail "End date must be after start date" yields exactly that Failed
message (see the witness). -/
theorem C7_fallback_error_mapping {Plan LogEntry : Type}
    (castResp : Json → TripResponse Plan LogEntry) (parseMsg typeMsg : String)
    (s : AppState Plan LogEntry) (r : TripRequest) (resp : HttpResponse)
    (hok : resp.ok = false) :
    (∀ errorData detail, resp.body = some errorData →
        errorData.getField "detail" = .ok (some (Json.str detail)) → detail ≠ "" →
        fallbackRun castResp parseMsg typeMsg s r resp =
          { isLoading := false, tripPlan := none, logs := [],
            error := some detail, lastSearch := some r })
    ∧ (∀ errorData, resp.body = some errorData →
        (errorData.getField "detail" = .ok none
          ∨ errorData.getField "detail" = .ok (some (Json.str ""))) →
        fallbackRun castResp parseMsg typeMsg s r resp =
          { isLoading := false, tripPlan := none, logs := [],
            error := some "Failed to generate trip plan", lastSearch := some r })
    ∧ (resp.body = some Json.null →
        fallbackRun castResp parseMsg typeMsg s r resp =
          { isLoading := false, tripPlan := none, logs := [],
            error := some typeMsg, lastSearch := some r })
    ∧ (resp.body = none →
        fallbackRun castResp parseMsg typeMsg s r resp =
          { isLoading := false, tripPlan := none, logs := [],
            error := some parseMsg, lastSearch := some r }) := by
  refine ⟨?_, ?_, ?_, ?_⟩
  · intro errorData detail hbody hdet hne
    have ht : Json.truthy (.str detail) = true := by
      simp [Json.truthy, hne]
    simp [fallbackRun, fallbackDispatch, hok, hbody, hdet, ht,
          jsDisplayString, tripReducer]
  · intro errorData hbody hdet
    rcases hdet with hdet | hdet <;>
      simp [fallbackRun, fallbackDispatch, hok, hbody, hdet, Json.truthy,
            tripReducer]
  · intro hbody
    simp [fallbackRun, fallbackDispatch, hok, hbody, Json.getField, tripReducer]
  · intro hbody
    simp [fallbackRun, fallbackDispatch, hok, hbody, tripReducer]

/-- C7 witness: the spec example — HTTP 400 with detail "End date must
be after start date" yields exactly that Failed state. -/
theorem C7_fallback_error_mapping_witness :
    fallbackRun castRespJ "Unexpected end of JSON input"
        "Cannot read properties of null" (initialState Json Json)
        exampleRequest badRequest400 =
      { isLoading := false, tripPlan := none, logs := [],
        error := some "End date must be after start date",
        lastSearch := some exampleRequest } :=
  (C7_fallback_error_mapping castRespJ "Unexpected end of JSON input"
      "Cannot read properties of null" (initialState Json Json)
      exampleRequest badRequest400 rfl).1
    (Json.obj [("detail", Json.str "End date must be after start date")])
    "End date must be after start date" rfl rfl (by decide)

/-! Pagination lemmas for the layout pass: the final page count is
monotone under insertion of extra content, because every step advances
the (page, cursor) pair in the pagination preorder and every step is
monotone with respect to that preorder. -/

/-- Helper: layLE is reflexive. -/
lemma layLE_refl (s : LayoutState) : layLE s s := Or.inr ⟨rfl, le_refl _⟩

/-- Helper: layLE is transitive. -/
lemma layLE_trans {s t u : LayoutState} (h1 : layLE s t) (h2 : layLE t u) :
    layLE s u := by
  rcases h1 with h1 | ⟨e1, y1⟩ <;> rcases h2 with h2 | ⟨e2, y2⟩
  · exact Or.inl (h1.trans h2)
  · exact Or.inl (e2 ▸ h1)
  · exact Or.inl (e1 ▸ h2)
  · exact Or.inr ⟨e1.trans e2, y1.trans y2⟩

/-- Helper: layLE implies page-count order. -/
lemma pages_le_of_layLE {s t : LayoutState} (h : layLE s t) : s.pages ≤ t.pages := by
  rcases h with h | ⟨e, _⟩
  · exact le_of_lt h
  · exact le_of_eq e

/-- Helper: one layout step keeps the cursor below the top margin. -/
lemma stepOp_yInv {H : ℚ} {s : LayoutState} (h : yInv s) (op : LayoutOp) :
    yInv (stepOp H s op) := by
  cases op with
  | ensure r =>
      have hs_eq : stepOp H s (.ensure r)
          = if s.y + (r:ℚ) > H - 20 then { pages := s.pages + 1, y := 20 } else s := rfl
      rw [hs_eq]
      by_cases hc : s.y + (r:ℚ) > H - 20
      · rw [if_pos hc]
        show (20:ℚ) ≤ 20
        exact le_refl 20
      · rw [if_neg hc]
        exact h
  | advance d =>
      have hd : (0:ℚ) ≤ (d:ℚ) := d.coe_nonneg
      have h20 : (20:ℚ) ≤ s.y := h
      show (20:ℚ) ≤ s.y + (d:ℚ)
      linarith

/-- Helper: runOps on a cons. -/
lemma runOps_cons (H : ℚ) (s : LayoutState) (op : LayoutOp) (ops : List LayoutOp) :
    runOps H s (op :: ops) = runOps H (stepOp H s op) ops := rfl

/-- Helper: runOps on an append. -/
lemma runOps_append (H : ℚ) (s : LayoutState) (l1 l2 : List LayoutOp) :
    runOps H s (l1 ++ l2) = runOps H (runOps H s l1) l2 := by
  simp [runOps]

/-- Helper: a run of layout steps keeps the cursor invariant. -/
lemma runOps_yInv {H : ℚ} {s : LayoutState} (h : yInv s) (ops : List LayoutOp) :
    yInv (runOps H s ops) := by
  induction ops generalizing s with
  | nil => exact h
  | cons op ops ih =>
      rw [runOps_cons]
      exact ih (stepOp_yInv h op)

/-- Helper: one layout step never moves backwards in the preorder. -/
lemma stepOp_layLE_self {H : ℚ} (s : LayoutState) (op : LayoutOp) :
    layLE s (stepOp H s op) := by
  cases op with
  | ensure r =>
      have hs_eq : stepOp H s (.ensure r)
          = if s.y + (r:ℚ) > H - 20 then { pages := s.pages + 1, y := 20 } else s := rfl
      rw [hs_eq]
      by_cases hc : s.y + (r:ℚ) > H - 20
      · rw [if_pos hc]
        exact Or.inl (Nat.lt_succ_self _)
      · rw [if_neg hc]
        exact layLE_refl s
  | advance d =>
      exact Or.inr ⟨rfl, le_add_of_nonneg_right d.coe_nonneg⟩

/-- Helper: one layout step is monotone in the preorder, given the
cursor invariant on the later state. -/
lemma stepOp_mono {H : ℚ} {s t : LayoutState} (ht : yInv t) (hle : layLE s t)
    (op : LayoutOp) : layLE (stepOp H s op) (stepOp H t op) := by
  cases op with
  | advance d =>
      rcases hle with h | ⟨e, hy⟩
      · exact Or.inl h
      · refine Or.inr ⟨e, ?_⟩
        show s.y + (d:ℚ) ≤ t.y + (d:ℚ)
        linarith
  | ensure r =>
      have hs_eq : ∀ u : LayoutState, stepOp H u (.ensure r)
          = if u.y + (r:ℚ) > H - 20 then { pages := u.pages + 1, y := 20 } else u :=
        fun u => rfl
      rw [hs_eq s, hs_eq t]
      by_cases cs : s.y + (r:ℚ) > H - 20 <;> by_cases ct : t.y + (r:ℚ) > H - 20 <;>
        simp only [cs, ct, if_true, if_false, ite_true, ite_false]
      · rcases hle with h | ⟨e, hy⟩
        · exact Or.inl (Nat.succ_lt_succ h)
        · exact Or.inr ⟨by rw [e], le_refl _⟩
      · rcases hle with h | ⟨e, hy⟩
        · rcases lt_or_eq_of_le (Nat.succ_le_of_lt h) with h2 | h2
          · exact Or.inl h2
          · exact Or.inr ⟨h2, ht⟩
        · exfalso
          have hct : t.y + (r:ℚ) ≤ H - 20 := not_lt.mp ct
          linarith
      · rcases hle with h | ⟨e, hy⟩
        · exact Or.inl (Nat.lt_succ_of_lt h)
        · exact Or.inl (e ▸ Nat.lt_succ_self t.pages)
      · exact hle

/-- Helper: a run of layout steps is monotone in the preorder. -/
lemma runOps_mono (H : ℚ) (ops : List LayoutOp) {s t : LayoutState}
    (hle : layLE s t) (ht : yInv t) :
    layLE (runOps H s ops) (runOps H t ops) := by
  induction ops generalizing s t with
  | nil => exact hle
  | cons op ops ih =>
      rw [runOps_cons, runOps_cons]
      exact ih (stepOp_mono ht hle op) (stepOp_yInv ht op)

/-- Helper: a run of layout steps never moves backwards. -/
lemma layLE_runOps_self {H : ℚ} (s : LayoutState) (ops : List LayoutOp) :
    layLE s (runOps H s ops) := by
  induction ops generalizing s with
  | nil => exact layLE_refl s
  | cons op ops ih =>
      rw [runOps_cons]
      exact layLE_trans (stepOp_layLE_self s op) (ih _)

/-- Helper: inserting a block of operations in the middle of a run
never moves the outcome backwards in the preorder. -/
lemma layLE_section_insert (H : ℚ) {u : LayoutState} (hu : yInv u)
    (pre mid post : List LayoutOp) :
    layLE (runOps H u (pre ++ post)) (runOps H u (pre ++ (mid ++ post))) := by
  simp only [runOps_append]
  exact runOps_mono H post (layLE_runOps_self (runOps H u pre) mid)
    (runOps_yInv (runOps_yInv hu pre) mid)

/-- Helper: appending a block of operations at the end of a run never
moves the outcome backwards in the preorder. -/
lemma layLE_append_insert (H : ℚ) (u : LayoutState) (pre mid : List LayoutOp) :
    layLE (runOps H u pre) (runOps H u (pre ++ mid)) := by
  rw [runOps_append]
  exact layLE_runOps_self _ mid

/-- Helper: the flights loop over a snoc. -/
lemma flightsBody_append (M : Metrics) (i : Nat) (fs : List Flight) (f : Flight) :
    flightsBody M i (fs ++ [f]) = flightsBody M i fs ++ flightOps M (i + fs.length) f := by
  induction fs generalizing i with
  | nil => simp [flightsBody]
  | cons g gs ih =>
      simp only [List.cons_append, List.append_eq, flightsBody, List.append_assoc,
        List.length_cons]
      rw [ih]
      have h : i + 1 + gs.length = i + (gs.length + 1) := by omega
      rw [h]

/-- Helper: the stays loop over a snoc. -/
lemma staysBody_append (M : Metrics) (i : Nat) (sts : List Stay) (st : Stay) :
    staysBody M i (sts ++ [st]) = staysBody M i sts ++ stayOps M (i + sts.length) st := by
  induction sts generalizing i with
  | nil => simp [staysBody]
  | cons g gs ih =>
      simp only [List.cons_append, List.append_eq, staysBody, List.append_assoc,
        List.length_cons]
      rw [ih]
      have h : i + 1 + gs.length = i + (gs.length + 1) := by omega
      rw [h]

/-- Helper: the days loop over a snoc. -/
lemma daysBody_append (M : Metrics) (i : Nat) (ds : List DayPlan) (d : DayPlan) :
    daysBody M i (ds ++ [d]) = daysBody M i ds ++ dayOps M (i + ds.length) d := by
  induction ds generalizing i with
  | nil => simp [daysBody]
  | cons g gs ih =>
      simp only [List.cons_append, List.append_eq, daysBody, List.append_assoc,
        List.length_cons]
      rw [ih]
      have h : i + 1 + gs.length = i + (gs.length + 1) := by omega
      rw [h]

/-- Helper: appending one flight never moves the flights section
outcome backwards. -/
lemma layLE_flightsSection_snoc (M : Metrics) (H : ℚ) {u : LayoutState} (hu : yInv u)
    (fs : List Flight) (f : Flight) :
    layLE (runOps H u (flightsSection M fs))
      (runOps H u (flightsSection M (fs ++ [f]))) := by
  cases fs with
  | nil =>
      have h0 : flightsSection M [] = [] := rfl
      rw [List.nil_append, h0]
      exact layLE_runOps_self u _
  | cons g gs =>
      have h1 : 0 < (g :: gs).length := Nat.succ_pos _
      have h2 : 0 < ((g :: gs) ++ [f]).length := by simp
      simp only [flightsSection, if_pos h1, if_pos h2, flightsBody_append,
        List.append_assoc, runOps_append]
      exact runOps_mono H _ (layLE_runOps_self _ _)
        (runOps_yInv (runOps_yInv (runOps_yInv hu _) _) _)

/-- Helper: appending one stay never moves the stays section outcome
backwards. -/
lemma layLE_staysSection_snoc (M : Metrics) (H : ℚ) {u : LayoutState} (hu : yInv u)
    (sts : List Stay) (st : Stay) :
    layLE (runOps H u (staysSection M sts))
      (runOps H u (staysSection M (sts ++ [st]))) := by
  cases sts with
  | nil =>
      have h0 : staysSection M [] = [] := rfl
      rw [List.nil_append, h0]
      exact layLE_runOps_self u _
  | cons g gs =>
      have h1 : 0 < (g :: gs).length := Nat.succ_pos _
      have h2 : 0 < ((g :: gs) ++ [st]).length := by simp
      simp only [staysSection, if_pos h1, if_pos h2, staysBody_append,
        List.append_assoc, runOps_append]
      exact runOps_mono H _ (layLE_runOps_self _ _)
        (runOps_yInv (runOps_yInv (runOps_yInv hu _) _) _)

/-- Helper: appending one day never moves the itinerary section outcome
backwards. -/
lemma layLE_activitiesSection_snoc (M : Metrics) (H : ℚ) (u : LayoutState)
    (ds : List DayPlan) (d : DayPlan) :
    layLE (runOps H u (activitiesSection M ds))
      (runOps H u (activitiesSection M (ds ++ [d]))) := by
  cases ds with
  | nil =>
      have h0 : activitiesSection M [] = [] := rfl
      rw [List.nil_append, h0]
      exact layLE_runOps_self u _
  | cons g gs =>
      have h1 : 0 < (g :: gs).length := Nat.succ_pos _
      have h2 : 0 < ((g :: gs) ++ [d]).length := by simp
      simp only [activitiesSection, if_pos h1, if_pos h2, daysBody_append,
        List.append_assoc, runOps_append]
      exact layLE_runOps_self _ _

/-- Helper: the initial layout state satisfies the cursor invariant. -/
lemma initLayout_yInv : yInv initLayout := by
  show (20:ℚ) ≤ 40
  norm_num

/-- Helper: appending a flight never decreases the page count. -/
lemma export_pages_mono_flights (M : Metrics) (plan : TripPlan)
    (ls : Option TripRequest) (f : Flight) :
    (exportToPDF M plan ls).pages
      ≤ (exportToPDF M { plan with flights := plan.flights ++ [f] } ls).pages := by
  simp only [exportToPDF, exportOps]
  simp only [runOps_append]
  have hu : yInv (runOps M.pageHeight initLayout (summaryPart M ls)) :=
    runOps_yInv initLayout_yInv _
  have h1 := layLE_flightsSection_snoc M M.pageHeight hu plan.flights f
  have h2 := runOps_mono M.pageHeight (staysSection M plan.stays) h1
    (runOps_yInv hu (flightsSection M (plan.flights ++ [f])))
  have h3 := runOps_mono M.pageHeight (activitiesSection M plan.activities) h2
    (runOps_yInv (runOps_yInv hu (flightsSection M (plan.flights ++ [f])))
      (staysSection M plan.stays))
  exact pages_le_of_layLE h3

/-- Helper: appending a stay never decreases the page count. -/
lemma export_pages_mono_stays (M : Metrics) (plan : TripPlan)
    (ls : Option TripRequest) (st : Stay) :
    (exportToPDF M plan ls).pages
      ≤ (exportToPDF M { plan with stays := plan.stays ++ [st] } ls).pages := by
  simp only [exportToPDF, exportOps]
  simp only [runOps_append]
  have hu : yInv (runOps M.pageHeight
      (runOps M.pageHeight initLayout (summaryPart M ls)) (flightsSection M plan.flights)) :=
    runOps_yInv (runOps_yInv initLayout_yInv _) _
  have h1 := layLE_staysSection_snoc M M.pageHeight hu plan.stays st
  have h2 := runOps_mono M.pageHeight (activitiesSection M plan.activities) h1
    (runOps_yInv hu (staysSection M (plan.stays ++ [st])))
  exact pages_le_of_layLE h2

/-- Helper: appending a day never decreases the page count. -/
lemma export_pages_mono_activities (M : Metrics) (plan : TripPlan)
    (ls : Option TripRequest) (d : DayPlan) :
    (exportToPDF M plan ls).pages
      ≤ (exportToPDF M { plan with activities := plan.activities ++ [d] } ls).pages := by
  simp only [exportToPDF, exportOps]
  simp only [runOps_append]
  exact pages_le_of_layLE
    (layLE_activitiesSection_snoc M M.pageHeight _ plan.activities d)

/-- C9 (confirmed): the document page count is non-decreasing in the
number of flight entries, stay entries and itinerary days — appending
an entry to any of the three lists never decreases the page count —
and the footer pass, which runs after the content pass off the final
page count, stamps every page with that same shared total (one footer
per page, each showing the final page count). -/
theorem C9_pages_monotone_and_footers (M : Metrics) (plan : TripPlan)
    (ls : Option TripRequest) (f : Flight) (st : Stay) (d : DayPlan) :
    ((exportToPDF M plan ls).pages
        ≤ (exportToPDF M { plan with flights := plan.flights ++ [f] } ls).pages)
    ∧ ((exportToPDF M plan ls).pages
        ≤ (exportToPDF M { plan with stays := plan.stays ++ [st] } ls).pages)
    ∧ ((exportToPDF M plan ls).pages
        ≤ (exportToPDF M { plan with activities := plan.activities ++ [d] } ls).pages)
    ∧ (∀ pr ∈ (exportToPDF M plan ls).footers, pr.2 = (exportToPDF M plan ls).pages)
    ∧ ((exportToPDF M plan ls).footers.length = (exportToPDF M plan ls).pages) := by
  refine ⟨export_pages_mono_flights M plan ls f,
          export_pages_mono_stays M plan ls st,
          export_pages_mono_activities M plan ls d, ?_, ?_⟩
  · intro pr hpr
    simp only [exportToPDF, stampFooters, List.mem_map, List.mem_range] at hpr
    rcases hpr with ⟨i, _, rfl⟩
    rfl
  · simp [exportToPDF, stampFooters]

/-- C10 (code bug): rendering conflates a present price of 0 with an
absent price.  formatPrice takes the `!price` branch for price 0 and
renders the absence placeholder instead of a formatted zero price, and
exportToPDF emits for a flight with est_price 0 exactly the operations
it emits when the field is absent (the price line is skipped). -/
theorem C10_price_zero_conflated_with_absent (M : Metrics) (i : Nat) (f : Flight) :
    formatPrice M (some 0) (some "USD") = "Price not available"
    ∧ formatPrice M none (some "USD") = "Price not available"
    ∧ flightOps M i { f with est_price := some 0 }
        = flightOps M i { f with est_price := none } := by
  refine ⟨rfl, rfl, ?_⟩
  simp [flightOps]

end TripWeaver
